import Mathlib

/-!
Verification of the Olist order feature pipeline (src/olist/data.py and
src/olist/order.py) against its specification.

Pandas DataFrames are embedded as Lean lists of row structures.  Timestamps
are integers (seconds); a missing timestamp (NaN in the CSV, NaT after
pd.to_datetime) is `none`.  Monetary amounts are rationals, since the CSV
holds decimal literals.  Geographic coordinates feeding the haversine
formula are reals.
-/

namespace Olist

/-- Row of the `orders` table: an order id, its customer, a status string and
the five timestamp columns parsed by `get_wait_time`; each timestamp is
`none` when the CSV cell is empty (pandas `NaT`). -/
structure OrderRow where
  order_id : String
  customer_id : String
  order_status : String
  order_purchase_timestamp : Option Int
  order_approved_at : Option Int
  order_delivered_carrier_date : Option Int
  order_delivered_customer_date : Option Int
  order_estimated_delivery_date : Option Int
deriving DecidableEq, Repr

/-- Row of the `order_reviews` table (the fields `get_review_score` uses). -/
structure ReviewRow where
  order_id : String
  review_score : Int
deriving DecidableEq, Repr

/-- Row of the `order_items` table (the fields the derivations use). -/
structure OrderItemRow where
  order_id : String
  order_item_id : Int
  seller_id : String
  price : ℚ
  freight_value : ℚ
deriving DecidableEq, Repr

/-- Output row of `get_wait_time`: `wait_time` and `expected_wait_time` are
timedeltas in seconds, `none` standing for pandas `NaT`. -/
structure WaitTimeRow where
  order_id : String
  wait_time : Option Int
  expected_wait_time : Option Int
  delay_vs_expected : Int
  order_status : String
deriving DecidableEq, Repr

/-- Subtraction of two timestamp columns: in pandas, subtracting when either
operand is `NaT` yields `NaT`. -/
def tdSub (a b : Option Int) : Option Int :=
  match a, b with
  | some x, some y => some (x - y)
  | _, _ => none

/-- The source line `(delivered - estimated).dt.days` followed by
`.apply(lambda x: x if x > 0 else 0)`.  For present timestamps `.dt.days` is
floor division of the timedelta by one day (86400 s), hence `Int.fdiv`.
When either timestamp is `NaT` the difference is `NaT`, `.dt.days` is `NaN`,
and the lambda maps `NaN` to `0` because `NaN > 0` is false in Python. -/
def delayDays (delivered estimated : Option Int) : Int :=
  match delivered, estimated with
  | some d, some e =>
      let x := Int.fdiv (d - e) 86400
      if x > 0 then x else 0
  | _, _ => 0

/-- Per-row column assignments of `get_wait_time` (order.py lines 30-35). -/
def waitRowOf (r : OrderRow) : WaitTimeRow :=
  { order_id := r.order_id
    wait_time := tdSub r.order_delivered_customer_date r.order_purchase_timestamp
    expected_wait_time := tdSub r.order_estimated_delivery_date r.order_purchase_timestamp
    delay_vs_expected := delayDays r.order_delivered_customer_date r.order_estimated_delivery_date
    order_status := r.order_status }

/-- order.py `Order.get_wait_time`.  The Python method accepts a parameter
`is_delivered` (default `True`) but its body never reads it: line 24 applies
the equality filter on the status column against the literal string delivered unconditionally. -/
def get_wait_time (orders : List OrderRow) ( is_delivered : Bool) : List WaitTimeRow :=
  (orders.filter (fun r => r.order_status == "delivered")).map waitRowOf

/-- Output row of `get_review_score`. -/
structure ReviewScoreRow where
  order_id : String
  dim_is_five_star : Int
  dim_is_one_star : Int
  review_score : Int
deriving DecidableEq, Repr

/-- order.py `Order.get_review_score`: per-row indicator columns, no
aggregation. -/
def get_review_score (reviews : List ReviewRow) : List ReviewScoreRow :=
  reviews.map fun r =>
    { order_id := r.order_id
      dim_is_five_star := if r.review_score == (5 : Int) then 1 else 0
      dim_is_one_star := if r.review_score == (1 : Int) then 1 else 0
      review_score := r.review_score }

/-- Output row of `get_number_products`. -/
structure NumberProductsRow where
  order_id : String
  number_of_products : Int
deriving DecidableEq, Repr

/-- Output row of `get_number_sellers`. -/
structure NumberSellersRow where
  order_id : String
  number_of_sellers : Int
deriving DecidableEq, Repr

/-- Output row of `get_price_and_freight`. -/
structure PriceFreightRow where
  order_id : String
  price : ℚ
  freight_value : ℚ
deriving DecidableEq, Repr

/-- order.py `Order.get_number_products`: groupby `order_id`, sum the
`order_item_id` column.  One output row per distinct `order_id`; pandas
orders keys by sort, which no claim depends on, so we take them in list
order via `dedup`. -/
def get_number_products (items : List OrderItemRow) : List NumberProductsRow :=
  ((items.map (fun i => i.order_id)).dedup).map fun oid =>
    { order_id := oid
      number_of_products :=
        ((items.filter (fun i => i.order_id == oid)).map (fun i => i.order_item_id)).sum }

/-- order.py `Order.get_number_sellers`: groupby `order_id`, `nunique` of the
`seller_id` column. -/
def get_number_sellers (items : List OrderItemRow) : List NumberSellersRow :=
  ((items.map (fun i => i.order_id)).dedup).map fun oid =>
    { order_id := oid
      number_of_sellers :=
        (((items.filter (fun i => i.order_id == oid)).map (fun i => i.seller_id)).dedup).length }

/-- order.py `Order.get_price_and_freight`: groupby `order_id`, sum `price`
and `freight_value` independently. -/
def get_price_and_freight (items : List OrderItemRow) : List PriceFreightRow :=
  ((items.map (fun i => i.order_id)).dedup).map fun oid =>
    { order_id := oid
      price := ((items.filter (fun i => i.order_id == oid)).map (fun i => i.price)).sum
      freight_value :=
        ((items.filter (fun i => i.order_id == oid)).map (fun i => i.freight_value)).sum }

/-- Row of the `sellers` table.  The source column is
`seller_zip_code_prefix`; it is shortened to `seller_zip` here. -/
structure SellerRow where
  seller_id : String
  seller_zip : Nat
deriving DecidableEq

/-- Row of the `customers` table.  The source column is
`customer_zip_code_prefix`; it is shortened to `customer_zip` here. -/
structure CustomerRow where
  customer_id : String
  customer_zip : Nat
deriving DecidableEq

/-- Row of the `geolocation` table.  The source column
`geolocation_zip_code_prefix` is shortened to `geo_zip`; coordinates are
reals since they feed the haversine formula. -/
structure GeoRow where
  geo_zip : Nat
  geolocation_lat : ℝ
  geolocation_lng : ℝ

/-- The loaded dataset: the keys of the `data` dict that order.py reads. -/
structure Tables where
  orders : List OrderRow
  order_reviews : List ReviewRow
  order_items : List OrderItemRow
  sellers : List SellerRow
  customers : List CustomerRow
  geolocation : List GeoRow

/-- Modelled from the spec: `haversine_distance` lives in `olist/utils.py`,
which is not among the provided source files; only its import and its call
site in order.py line 112 are.  The spec gives the formula: convert degrees
to radians, `a = sin²(Δlat/2) + cos(lat1)·cos(lat2)·sin²(Δlon/2)`,
distance `= 2·R·asin(√a)` with `R = 6371` km; arguments are
`(lon1, lat1, lon2, lat2)` per the call site. -/
noncomputable def haversine_distance (lon1 lat1 lon2 lat2 : ℝ) : ℝ :=
  let rlat1 := lat1 * Real.pi / 180
  let rlat2 := lat2 * Real.pi / 180
  let dlat := (lat2 - lat1) * Real.pi / 180
  let dlon := (lon2 - lon1) * Real.pi / 180
  let a := Real.sin (dlat / 2) ^ 2 +
    Real.cos rlat1 * Real.cos rlat2 * Real.sin (dlon / 2) ^ 2
  2 * 6371 * Real.arcsin (Real.sqrt a)

/-- Output row of `get_distance_seller_customer`. -/
structure DistanceRow where
  order_id : String
  distance_seller_customer : ℝ

/-- Intermediate row of the distance derivation after the order → item left
join: `seller_id` is `none` when an order has no item rows (the left join
leaves NaN there, which the subsequent inner merge on `seller_id` drops). -/
structure OcsRow where
  order_id : String
  customer_id : String
  seller_id : Option String

/-- order.py `Order.get_distance_seller_customer` (lines 85-116): reduce
geolocation to its first row per zip prefix, left-join sellers and customers
to coordinates, chain orders → order items → seller coordinates → customer
coordinates, drop rows with a missing coordinate, apply the haversine
formula per item row and average per `order_id`. -/
noncomputable def get_distance_seller_customer (t : Tables) : List DistanceRow :=
  let geolocation := ((t.geolocation.map (fun g => g.geo_zip)).dedup).filterMap
    (fun z => t.geolocation.find? (fun g => g.geo_zip == z))
  let sellers_geo := t.sellers.map
    (fun s => (s, geolocation.find? (fun g => g.geo_zip == s.seller_zip)))
  let customers_geo := t.customers.map
    (fun c => (c, geolocation.find? (fun g => g.geo_zip == c.customer_zip)))
  let orders_customers_sellers : List OcsRow := t.orders.flatMap (fun o =>
    match t.order_items.filter (fun i => i.order_id == o.order_id) with
    | [] => [{ order_id := o.order_id, customer_id := o.customer_id, seller_id := none }]
    | ms => ms.map (fun i =>
        { order_id := o.order_id, customer_id := o.customer_id
          seller_id := some i.seller_id }))
  let ocs_seller := orders_customers_sellers.flatMap (fun r =>
    (sellers_geo.filter (fun sg => r.seller_id == some sg.1.seller_id)).map
      (fun sg => (r, sg.2)))
  let ocs_both := ocs_seller.flatMap (fun r =>
    (customers_geo.filter (fun cg => cg.1.customer_id == r.1.customer_id)).map
      (fun cg => (r.1, r.2, cg.2)))
  let complete : List (String × ℝ) := ocs_both.filterMap (fun r =>
    match r.2.1, r.2.2 with
    | some gs, some gc =>
        some (r.1.order_id,
          haversine_distance gs.geolocation_lng gs.geolocation_lat
            gc.geolocation_lng gc.geolocation_lat)
    | _, _ => none)
  ((complete.map (fun p => p.1)).dedup).map (fun oid =>
    let ds := (complete.filter (fun p => p.1 == oid)).map (fun p => p.2)
    { order_id := oid, distance_seller_customer := ds.sum / ds.length })

/-- A pandas inner merge on a string key: for each left row, every right row
whose key matches, combined by `mk`, in left-then-right order. -/
def innerMergeOn {α β γ : Type} (ka : α → String) (kb : β → String)
    (mk : α → β → γ) (xs : List α) (ys : List β) : List γ :=
  xs.flatMap fun x => (ys.filter fun y => kb y == ka x).map fun y => mk x y

/-- Row of the training set assembled by `get_training_data`.  The
`distance_seller_customer` column exists only when the distance merge runs;
`none` stands for the absent column in the default call. -/
structure TrainingRow where
  order_id : String
  wait_time : Option Int
  expected_wait_time : Option Int
  delay_vs_expected : Int
  order_status : String
  dim_is_five_star : Int
  dim_is_one_star : Int
  review_score : Int
  number_of_products : Int
  number_of_sellers : Int
  price : ℚ
  freight_value : ℚ
  distance_seller_customer : Option ℝ

/-- The `dropna()` test on a merged row.  After the inner merges, the only
columns of the source frame that can hold a missing value are the two
timedelta columns `wait_time` and `expected_wait_time` (they are NaT when a
source timestamp was missing): `delay_vs_expected` was already coerced to 0,
the indicator, count and sum columns are never null, and the distance
column, when joined, is never null because `get_distance_seller_customer`
drops incomplete rows before aggregating. -/
def hasNoNa (r : TrainingRow) : Bool :=
  r.wait_time.isSome && r.expected_wait_time.isSome

/-- Assembly of one training row from one matched row of each feature
table: the columns the sequence of merges in `get_training_data` carries
along.  The distance column is set to `none` because the five-way merge has
no such column; the optional distance merge fills it. -/
def mkTrainingRow (w : WaitTimeRow) (rv : ReviewScoreRow) (np : NumberProductsRow)
    (ns : NumberSellersRow) (pf : PriceFreightRow) : TrainingRow :=
  { order_id := w.order_id
    wait_time := w.wait_time
    expected_wait_time := w.expected_wait_time
    delay_vs_expected := w.delay_vs_expected
    order_status := w.order_status
    dim_is_five_star := rv.dim_is_five_star
    dim_is_one_star := rv.dim_is_one_star
    review_score := rv.review_score
    number_of_products := np.number_of_products
    number_of_sellers := ns.number_of_sellers
    price := pf.price
    freight_value := pf.freight_value
    distance_seller_customer := none }

/-- The five-way merge of order.py line 129: wait-time ⨝ review-score ⨝
product-count ⨝ seller-count ⨝ price/freight, all inner merges on
`order_id`, in that sequence. -/
def trainingBase (t : Tables) ( is_delivered : Bool) : List TrainingRow :=
  let m1 := innerMergeOn WaitTimeRow.order_id ReviewScoreRow.order_id Prod.mk
    (get_wait_time t.orders is_delivered) (get_review_score t.order_reviews)
  let m2 := innerMergeOn (fun p => p.1.order_id) NumberProductsRow.order_id Prod.mk
    m1 (get_number_products t.order_items)
  let m3 := innerMergeOn (fun p => p.1.1.order_id) NumberSellersRow.order_id Prod.mk
    m2 (get_number_sellers t.order_items)
  let m4 := innerMergeOn (fun p => p.1.1.1.order_id) PriceFreightRow.order_id Prod.mk
    m3 (get_price_and_freight t.order_items)
  m4.map (fun p => mkTrainingRow p.1.1.1.1 p.1.1.1.2 p.1.1.2 p.1.2 p.2)

/-- order.py `Order.get_training_data` (lines 118-133): inner-merge the five
feature tables on `order_id` in sequence, optionally inner-merge the
distance table when `with_distance_seller_customer` is true, then
`dropna()`. -/
noncomputable def get_training_data (t : Tables)
    ( is_delivered : Bool) (with_distance_seller_customer : Bool) :
    List TrainingRow :=
  let training_set := trainingBase t is_delivered
  let training_set :=
    if with_distance_seller_customer then
      innerMergeOn TrainingRow.order_id DistanceRow.order_id
        (fun r d => { r with distance_seller_customer := some d.distance_seller_customer })
        training_set (get_distance_seller_customer t)
    else training_set
  training_set.filter hasNoNa

/-- Error raised by the dataset loader; the name the spec gives to the OS error
that `os.listdir` raises when the `data/csv` directory is missing or
unreadable. -/
inductive LoadError where
  | FileAccessError : LoadError
deriving DecidableEq

/-- data.py `Olist.get_data`.  The filesystem is abstracted as the listing
of the `data/csv` directory: `none` when the directory is missing or
unreadable (so `os.listdir` raises), `some files` otherwise.  `read_csv`
stands for parsing one file into a table of type `α`.  Key names strip
`olist_`, `_dataset.csv` and `.csv` exactly as in the source; the Python
that the file name contains the csv suffix is the Python substring test, rendered via `splitOn`. -/
def get_data {α : Type} (listing : Option (List String))
    (read_csv : String → α) : Except LoadError (List (String × α)) :=
  match listing with
  | none => Except.error LoadError.FileAccessError
  | some files =>
      let file_names := files.filter (fun f => (f.splitOn ".csv").length ≥ 2)
      let key_names := file_names.map (fun n =>
        ((n.replace "olist_" "").replace "_dataset.csv" "").replace ".csv" "")
      Except.ok (key_names.zip (file_names.map read_csv))

/-! Helper lemmas shared by the claim theorems. -/

lemma mem_innerMergeOn {α β γ : Type} (ka : α → String) (kb : β → String)
    (mk : α → β → γ) (xs : List α) (ys : List β) (z : γ) :
    z ∈ innerMergeOn ka kb mk xs ys ↔
      ∃ x, x ∈ xs ∧ ∃ y, y ∈ ys ∧ kb y = ka x ∧ z = mk x y := by
  simp only [innerMergeOn, List.mem_flatMap, List.mem_map, List.mem_filter,
    beq_iff_eq]
  constructor
  · rintro ⟨x, hx, y, ⟨hy, hk⟩, rfl⟩
    exact ⟨x, hx, y, hy, hk, rfl⟩
  · rintro ⟨x, hx, y, hy, hk, rfl⟩
    exact ⟨x, hx, y, ⟨hy, hk⟩, rfl⟩

lemma mem_get_wait_time {orders : List OrderRow} {b : Bool} {w : WaitTimeRow} :
    w ∈ get_wait_time orders b ↔
      ∃ r, r ∈ orders ∧ r.order_status = "delivered" ∧ w = waitRowOf r := by
  simp only [get_wait_time, List.mem_map, List.mem_filter, beq_iff_eq]
  constructor
  · rintro ⟨r, ⟨hr, hs⟩, rfl⟩
    exact ⟨r, hr, hs, rfl⟩
  · rintro ⟨r, hr, hs, rfl⟩
    exact ⟨r, ⟨hr, hs⟩, rfl⟩

lemma delayDays_nonneg (d e : Option Int) : 0 ≤ delayDays d e := by
  unfold delayDays
  cases d with
  | none => simp
  | some x =>
    cases e with
    | none => simp
    | some y =>
      simp only []
      split <;> omega

/-! Claim theorems. -/

/-- C1: the claim (and the docstring of `get_wait_time`) says that
`is_delivered=False` disables the status filter, so orders of every status
appear.  The code never reads the parameter: line 24 filters to status
"delivered" unconditionally, so with the flag false an order in status
"shipped" still does not appear in the output. -/
theorem C1_flag_false_still_filters_to_delivered :
    get_wait_time
      [{ order_id := "o1", customer_id := "c1", order_status := "shipped",
         order_purchase_timestamp := some 0, order_approved_at := some 3600,
         order_delivered_carrier_date := some 7200,
         order_delivered_customer_date := some 432000,
         order_estimated_delivery_date := some 864000 }] false = [] := rfl

/-- Concrete delivered order whose customer-delivery timestamp is missing;
used to exhibit the behaviour of `get_wait_time` on missing timestamps. -/
def orderMissingDelivery : OrderRow :=
  { order_id := "o1", customer_id := "c1", order_status := "delivered",
    order_purchase_timestamp := some 0, order_approved_at := some 3600,
    order_delivered_carrier_date := some 7200,
    order_delivered_customer_date := none,
    order_estimated_delivery_date := some 864000 }

/-- C3 counterexample: the claim says a row with a missing parsed timestamp
is dropped from the wait-time output.  On a delivered order whose
customer-delivery timestamp is missing, `get_wait_time` returns the row:
it appears with `wait_time` missing (NaT) and `delay_vs_expected` coerced
to 0, instead of being dropped. -/
theorem C3_counterexample_row_not_dropped :
    get_wait_time [orderMissingDelivery] true =
      [{ order_id := "o1", wait_time := none, expected_wait_time := some 864000,
         delay_vs_expected := 0, order_status := "delivered" }] := rfl

/-- C3 (amended): a row with a missing value in any of the five parsed
timestamp columns is not dropped by the wait-time derivation and raises no
exception; if it passes the status filter it appears in the returned table.
Per column: `wait_time` is missing when the purchase or customer-delivery
timestamp is missing, `expected_wait_time` is missing when the purchase or
estimated-delivery timestamp is missing, `delay_vs_expected` is coerced to
0 when the customer-delivery or estimated-delivery timestamp is missing,
and the approval and carrier timestamps do not affect the output columns at
all. -/
theorem C3_missing_timestamp_rows_kept (orders : List OrderRow) (b : Bool)
    (r : OrderRow) (hmem : r ∈ orders) (hst : r.order_status = "delivered")
    (hmiss : r.order_purchase_timestamp = none ∨ r.order_approved_at = none ∨
      r.order_delivered_carrier_date = none ∨
      r.order_delivered_customer_date = none ∨
      r.order_estimated_delivery_date = none) :
    waitRowOf r ∈ get_wait_time orders b ∧
    (r.order_purchase_timestamp = none ∨ r.order_delivered_customer_date = none →
      (waitRowOf r).wait_time = none) ∧
    (r.order_purchase_timestamp = none ∨ r.order_estimated_delivery_date = none →
      (waitRowOf r).expected_wait_time = none) ∧
    (r.order_delivered_customer_date = none ∨ r.order_estimated_delivery_date = none →
      (waitRowOf r).delay_vs_expected = 0) ∧
    (∀ p q, waitRowOf
        { r with order_approved_at := p, order_delivered_carrier_date := q } =
      waitRowOf r) := by
  refine ⟨mem_get_wait_time.mpr ⟨r, hmem, hst, rfl⟩, ?_, ?_, ?_, fun p q => rfl⟩
  · rintro (hp | hd)
    · simp only [waitRowOf]
      rw [hp]
      cases r.order_delivered_customer_date <;> rfl
    · simp only [waitRowOf]
      rw [hd]
      rfl
  · rintro (hp | he)
    · simp only [waitRowOf]
      rw [hp]
      cases r.order_estimated_delivery_date <;> rfl
    · simp only [waitRowOf]
      rw [he]
      rfl
  · rintro (hd | he)
    · simp only [waitRowOf]
      rw [hd]
      rfl
    · simp only [waitRowOf]
      rw [he]
      cases r.order_delivered_customer_date <;> rfl

/-- Witness for C3 at the concrete order with a missing delivery date. -/
theorem C3_missing_timestamp_rows_kept_witness :
    waitRowOf orderMissingDelivery ∈ get_wait_time [orderMissingDelivery] true ∧
    (orderMissingDelivery.order_purchase_timestamp = none ∨
        orderMissingDelivery.order_delivered_customer_date = none →
      (waitRowOf orderMissingDelivery).wait_time = none) ∧
    (orderMissingDelivery.order_purchase_timestamp = none ∨
        orderMissingDelivery.order_estimated_delivery_date = none →
      (waitRowOf orderMissingDelivery).expected_wait_time = none) ∧
    (orderMissingDelivery.order_delivered_customer_date = none ∨
        orderMissingDelivery.order_estimated_delivery_date = none →
      (waitRowOf orderMissingDelivery).delay_vs_expected = 0) ∧
    (∀ p q, waitRowOf
        { orderMissingDelivery with
          order_approved_at := p, order_delivered_carrier_date := q } =
      waitRowOf orderMissingDelivery) :=
  C3_missing_timestamp_rows_kept [orderMissingDelivery] true orderMissingDelivery
    (by simp) rfl (Or.inr (Or.inr (Or.inr (Or.inl rfl))))

/-- C5: `delay_vs_expected` is the whole-day count of (customer delivery −
estimated delivery) clamped at zero, i.e. `max (fdiv (d - e) 86400) 0` when
both timestamps are present, and every row of the wait-time output has
`delay_vs_expected ≥ 0`. -/
theorem C5_delay_clamped_nonneg (orders : List OrderRow) (b : Bool) :
    (∀ w ∈ get_wait_time orders b, 0 ≤ w.delay_vs_expected) ∧
    (∀ r ∈ orders, r.order_status = "delivered" →
      ∀ d e, r.order_delivered_customer_date = some d →
        r.order_estimated_delivery_date = some e →
        waitRowOf r ∈ get_wait_time orders b ∧
        (waitRowOf r).delay_vs_expected = max (Int.fdiv (d - e) 86400) 0) := by
  constructor
  · intro w hw
    obtain ⟨r, _, _, rfl⟩ := mem_get_wait_time.mp hw
    exact delayDays_nonneg _ _
  · intro r hr hst d e hd he
    refine ⟨mem_get_wait_time.mpr ⟨r, hr, hst, rfl⟩, ?_⟩
    simp only [waitRowOf, delayDays, hd, he]
    split <;> omega

/-- Concrete delivered order, two days and change late versus its
estimate. -/
def orderLate : OrderRow :=
  { order_id := "o2", customer_id := "c2", order_status := "delivered",
    order_purchase_timestamp := some 0, order_approved_at := some 3600,
    order_delivered_carrier_date := some 7200,
    order_delivered_customer_date := some 432000,
    order_estimated_delivery_date := some 259200 }

/-- Witness for C5: the late order yields a delay of exactly 2 whole days
(432000 − 259200 = 172800 s = 2 days). -/
theorem C5_delay_clamped_nonneg_witness :
    (waitRowOf orderLate ∈ get_wait_time [orderLate] true ∧
      (waitRowOf orderLate).delay_vs_expected =
        max (Int.fdiv ((432000 : Int) - 259200) 86400) 0) ∧
    (waitRowOf orderLate).delay_vs_expected = 2 :=
  ⟨(C5_delay_clamped_nonneg [orderLate] true).2 orderLate (by simp) rfl
      432000 259200 rfl rfl,
    by decide⟩

/-- C7: in the review-score derivation, `dim_is_five_star` is 1 exactly when
the review score is 5 and 0 otherwise, `dim_is_one_star` is 1 exactly when
the score is 1 and 0 otherwise, and the two indicators are never both 1 on
a row. -/
theorem C7_review_indicators (reviews : List ReviewRow) (r : ReviewScoreRow)
    (h : r ∈ get_review_score reviews) :
    (r.dim_is_five_star = 1 ↔ r.review_score = 5) ∧
    (r.dim_is_five_star = 1 ∨ r.dim_is_five_star = 0) ∧
    (r.dim_is_one_star = 1 ↔ r.review_score = 1) ∧
    (r.dim_is_one_star = 1 ∨ r.dim_is_one_star = 0) ∧
    ¬(r.dim_is_five_star = 1 ∧ r.dim_is_one_star = 1) := by
  obtain ⟨s, _, rfl⟩ := List.mem_map.mp h
  simp only [beq_iff_eq]
  by_cases h5 : s.review_score = 5 <;> by_cases h1 : s.review_score = 1 <;>
    simp [h5, h1]

/-- Witness for C7 at a single five-star review. -/
theorem C7_review_indicators_witness :
    ((⟨"o1", 1, 0, 5⟩ : ReviewScoreRow).dim_is_five_star = 1 ↔
        (⟨"o1", 1, 0, 5⟩ : ReviewScoreRow).review_score = 5) ∧
    ((⟨"o1", 1, 0, 5⟩ : ReviewScoreRow).dim_is_five_star = 1 ∨
        (⟨"o1", 1, 0, 5⟩ : ReviewScoreRow).dim_is_five_star = 0) ∧
    ((⟨"o1", 1, 0, 5⟩ : ReviewScoreRow).dim_is_one_star = 1 ↔
        (⟨"o1", 1, 0, 5⟩ : ReviewScoreRow).review_score = 1) ∧
    ((⟨"o1", 1, 0, 5⟩ : ReviewScoreRow).dim_is_one_star = 1 ∨
        (⟨"o1", 1, 0, 5⟩ : ReviewScoreRow).dim_is_one_star = 0) ∧
    ¬((⟨"o1", 1, 0, 5⟩ : ReviewScoreRow).dim_is_five_star = 1 ∧
        (⟨"o1", 1, 0, 5⟩ : ReviewScoreRow).dim_is_one_star = 1) :=
  C7_review_indicators [⟨"o1", 5⟩] ⟨"o1", 1, 0, 5⟩ (by decide)

/-- A two-item order: item sequence numbers 1 and 2, one seller, prices
10.0 and 5.5, freight values 2.0 and 1.0 (the round-trip example of the spec). -/
def pairItems : List OrderItemRow :=
  [{ order_id := "o1", order_item_id := 1, seller_id := "s1",
     price := 10, freight_value := 2 },
   { order_id := "o1", order_item_id := 2, seller_id := "s1",
     price := 5.5, freight_value := 1 }]

/-- C4: `get_number_products` groups by `order_id` and reports
`number_of_products` as the sum of the `order_item_id` sequence numbers of
the group — a sum of ordinals, not a row count: the two-item order yields
1 + 2 = 3. -/
theorem C4_number_products_is_ordinal_sum (items : List OrderItemRow)
    (p : NumberProductsRow) (h : p ∈ get_number_products items) :
    p.number_of_products =
      ((items.filter (fun i => i.order_id == p.order_id)).map
        (fun i => i.order_item_id)).sum ∧
    get_number_products pairItems =
      [{ order_id := "o1", number_of_products := 3 }] := by
  obtain ⟨oid, _, rfl⟩ := List.mem_map.mp h
  exact ⟨rfl, by decide⟩

/-- Witness for C4 at the two-item order. -/
theorem C4_number_products_is_ordinal_sum_witness :
    (({ order_id := "o1", number_of_products := 3 } :
        NumberProductsRow).number_of_products =
      ((pairItems.filter (fun i => i.order_id ==
          ({ order_id := "o1", number_of_products := 3 } :
            NumberProductsRow).order_id)).map
        (fun i => i.order_item_id)).sum) ∧
    get_number_products pairItems =
      [{ order_id := "o1", number_of_products := 3 }] :=
  C4_number_products_is_ordinal_sum pairItems
    { order_id := "o1", number_of_products := 3 } (by decide)

/-- C8: `get_number_sellers` groups by `order_id` and counts distinct
seller ids, and that count never exceeds the number of order-item rows of
the group. -/
theorem C8_number_sellers_distinct_count (items : List OrderItemRow)
    (s : NumberSellersRow) (h : s ∈ get_number_sellers items) :
    s.number_of_sellers =
      ((((items.filter (fun i => i.order_id == s.order_id)).map
        (fun i => i.seller_id)).dedup).length : Int) ∧
    s.number_of_sellers ≤
      (((items.filter (fun i => i.order_id == s.order_id)).length : Int)) := by
  obtain ⟨oid, _, rfl⟩ := List.mem_map.mp h
  refine ⟨rfl, ?_⟩
  have h1 : ((((items.filter (fun i => i.order_id == oid)).map
      (fun i => i.seller_id)).dedup).length : Nat) ≤
      (((items.filter (fun i => i.order_id == oid)).map
        (fun i => i.seller_id)).length : Nat) :=
    (List.dedup_sublist _).length_le
  simp only [List.length_map] at h1
  show ((((items.filter (fun i => i.order_id == oid)).map
      (fun i => i.seller_id)).dedup).length : Int) ≤
    (((items.filter (fun i => i.order_id == oid)).length : Int))
  exact_mod_cast h1

/-- Witness for C8 at the two-item order: its one distinct seller is at most
its two item rows. -/
theorem C8_number_sellers_distinct_count_witness :
    (({ order_id := "o1", number_of_sellers := 1 } :
        NumberSellersRow).number_of_sellers =
      ((((pairItems.filter (fun i => i.order_id ==
          ({ order_id := "o1", number_of_sellers := 1 } :
            NumberSellersRow).order_id)).map
        (fun i => i.seller_id)).dedup).length : Int)) ∧
    ({ order_id := "o1", number_of_sellers := 1 } :
        NumberSellersRow).number_of_sellers ≤
      (((pairItems.filter (fun i => i.order_id ==
          ({ order_id := "o1", number_of_sellers := 1 } :
            NumberSellersRow).order_id)).length : Int)) :=
  C8_number_sellers_distinct_count pairItems
    { order_id := "o1", number_of_sellers := 1 } (by decide)

/-- C9: `get_price_and_freight` groups by `order_id` and sums `price` and
`freight_value` independently; on the two-item order with prices
[10.0, 5.5] and freight values [2.0, 1.0] it yields price 15.5 and
freight_value 3.0. -/
theorem C9_price_freight_sums (items : List OrderItemRow)
    (p : PriceFreightRow) (h : p ∈ get_price_and_freight items) :
    p.price = ((items.filter (fun i => i.order_id == p.order_id)).map
      (fun i => i.price)).sum ∧
    p.freight_value = ((items.filter (fun i => i.order_id == p.order_id)).map
      (fun i => i.freight_value)).sum ∧
    get_price_and_freight pairItems =
      [{ order_id := "o1", price := 15.5, freight_value := 3 }] := by
  obtain ⟨oid, _, rfl⟩ := List.mem_map.mp h
  refine ⟨rfl, rfl, ?_⟩
  simp [get_price_and_freight, pairItems]
  norm_num

/-- Witness for C9 at the two-item order. -/
theorem C9_price_freight_sums_witness :
    (({ order_id := "o1", price := 15.5, freight_value := 3 } :
        PriceFreightRow).price =
      ((pairItems.filter (fun i => i.order_id ==
          ({ order_id := "o1", price := 15.5, freight_value := 3 } :
            PriceFreightRow).order_id)).map (fun i => i.price)).sum) ∧
    (({ order_id := "o1", price := 15.5, freight_value := 3 } :
        PriceFreightRow).freight_value =
      ((pairItems.filter (fun i => i.order_id ==
          ({ order_id := "o1", price := 15.5, freight_value := 3 } :
            PriceFreightRow).order_id)).map (fun i => i.freight_value)).sum) ∧
    get_price_and_freight pairItems =
      [{ order_id := "o1", price := 15.5, freight_value := 3 }] :=
  C9_price_freight_sums pairItems
    { order_id := "o1", price := 15.5, freight_value := 3 }
    (by simp [get_price_and_freight, pairItems]; norm_num)

/-- C6: the loader fails, with the access error, exactly when the `data/csv`
directory is missing or unreadable (the directory listing is unavailable);
otherwise it returns the parsed tables.  The error is the return value of the function — it surfaces to the caller directly, with no retry. -/
theorem C6_loader_fails_iff_dir_unreadable {α : Type}
    (listing : Option (List String)) (read_csv : String → α) :
    get_data listing read_csv = Except.error LoadError.FileAccessError ↔
      listing = none := by
  cases listing <;> simp [get_data]

/-- C10: the haversine distance follows the spec formula exactly; the
distance from (lon 0, lat 0) to itself is 0, and from (lon 0, lat 0) to
(lon 0, lat 90) it is 6371·π/2 km, which lies strictly between 10007.5 and
10007.6 (≈ 10007.5 km, the quarter great circle). -/
theorem C10_haversine_values :
    haversine_distance 0 0 0 0 = 0 ∧
    haversine_distance 0 0 0 90 = 6371 * Real.pi / 2 ∧
    10007.5 < haversine_distance 0 0 0 90 ∧
    haversine_distance 0 0 0 90 < 10007.6 := by
  have h2 : haversine_distance 0 0 0 90 = 6371 * Real.pi / 2 := by
    show 2 * 6371 * Real.arcsin (Real.sqrt
        (Real.sin (((90 : ℝ) - 0) * Real.pi / 180 / 2) ^ 2 +
          Real.cos ((0 : ℝ) * Real.pi / 180) * Real.cos ((90 : ℝ) * Real.pi / 180) *
            Real.sin (((0 : ℝ) - 0) * Real.pi / 180 / 2) ^ 2)) =
      6371 * Real.pi / 2
    rw [show ((90 : ℝ) - 0) * Real.pi / 180 / 2 = Real.pi / 4 by ring,
      show ((0 : ℝ) - 0) * Real.pi / 180 / 2 = 0 by ring,
      show (0 : ℝ) * Real.pi / 180 = 0 by ring,
      show (90 : ℝ) * Real.pi / 180 = Real.pi / 2 by ring]
    rw [Real.sin_zero, Real.cos_pi_div_two]
    rw [show Real.sin (Real.pi / 4) ^ 2 + Real.cos 0 * 0 * 0 ^ 2 =
      Real.sin (Real.pi / 4) ^ 2 by ring]
    rw [Real.sqrt_sq (by rw [Real.sin_pi_div_four]; positivity)]
    rw [Real.arcsin_sin (by linarith [Real.pi_pos]) (by linarith [Real.pi_pos])]
    ring
  refine ⟨?_, h2, ?_, ?_⟩
  · unfold haversine_distance
    simp
  · rw [h2]
    have := Real.pi_gt_d6
    norm_num
    linarith
  · rw [h2]
    have := Real.pi_lt_d6
    norm_num
    linarith

lemma get_training_data_false (t : Tables) (b : Bool) :
    get_training_data t b false = (trainingBase t b).filter hasNoNa := rfl

lemma trainingBase_ignores_geo_tables (t : Tables) (b : Bool)
    (s : List SellerRow) (c : List CustomerRow) (g : List GeoRow) :
    trainingBase { t with sellers := s, customers := c, geolocation := g } b =
      trainingBase t b := rfl

lemma mem_trainingBase {t : Tables} {b : Bool} {r : TrainingRow}
    (h : r ∈ trainingBase t b) :
    ∃ w, w ∈ get_wait_time t.orders b ∧
    ∃ rv, rv ∈ get_review_score t.order_reviews ∧
    ∃ np, np ∈ get_number_products t.order_items ∧
    ∃ ns, ns ∈ get_number_sellers t.order_items ∧
    ∃ pf, pf ∈ get_price_and_freight t.order_items ∧
      rv.order_id = w.order_id ∧ np.order_id = w.order_id ∧
      ns.order_id = w.order_id ∧ pf.order_id = w.order_id ∧
      r = mkTrainingRow w rv np ns pf := by
  obtain ⟨p, hp, rfl⟩ := List.mem_map.mp h
  obtain ⟨q3, hq3, pf, hpf, hkpf, rfl⟩ := (mem_innerMergeOn _ _ _ _ _ _).mp hp
  obtain ⟨q2, hq2, ns, hns, hkns, rfl⟩ := (mem_innerMergeOn _ _ _ _ _ _).mp hq3
  obtain ⟨q1, hq1, np, hnp, hknp, rfl⟩ := (mem_innerMergeOn _ _ _ _ _ _).mp hq2
  obtain ⟨w, hw, rv, hrv, hkrv, rfl⟩ := (mem_innerMergeOn _ _ _ _ _ _).mp hq1
  exact ⟨w, hw, rv, hrv, np, hnp, ns, hns, pf, hpf, hkrv, hknp, hkns, hkpf, rfl⟩

/-- Five delivered orders with complete timestamps. -/
def fiveOrders : List OrderRow :=
  ["o1", "o2", "o3", "o4", "o5"].map fun oid =>
    { order_id := oid, customer_id := "c" ++ oid, order_status := "delivered",
      order_purchase_timestamp := some 0, order_approved_at := some 3600,
      order_delivered_carrier_date := some 7200,
      order_delivered_customer_date := some 432000,
      order_estimated_delivery_date := some 864000 }

/-- Reviews for four of the five orders: order "o5" lacks a review. -/
def fourReviews : List ReviewRow :=
  [{ order_id := "o1", review_score := 5 }, { order_id := "o2", review_score := 4 },
   { order_id := "o3", review_score := 3 }, { order_id := "o4", review_score := 1 }]

/-- One order item for each of the five orders. -/
def fiveItems : List OrderItemRow :=
  ["o1", "o2", "o3", "o4", "o5"].map fun oid =>
    { order_id := oid, order_item_id := 1, seller_id := "s1",
      price := 10, freight_value := 2 }

/-- Dataset with five orders of which one lacks a review. -/
def tFive : Tables :=
  { orders := fiveOrders, order_reviews := fourReviews, order_items := fiveItems,
    sellers := [], customers := [], geolocation := [] }

/-- C2: `get_training_data` inner-merges the five feature derivations on
`order_id` in sequence and drops rows with missing values, so every
resulting `order_id` occurs in all five feature tables; with the flag it
additionally inner-merges the distance derivation, so every resulting
`order_id` also occurs there; without the flag the result is independent of
the tables only the distance derivation reads; every surviving row has no
missing value; and on five orders of which one lacks a review the result
has exactly 4 rows. -/
theorem C2_training_data_assembly :
    (∀ t b, ((get_training_data t b false).all fun r =>
      (((get_wait_time t.orders b).map WaitTimeRow.order_id).contains r.order_id &&
       ((get_review_score t.order_reviews).map ReviewScoreRow.order_id).contains r.order_id &&
       ((get_number_products t.order_items).map NumberProductsRow.order_id).contains r.order_id &&
       ((get_number_sellers t.order_items).map NumberSellersRow.order_id).contains r.order_id &&
       ((get_price_and_freight t.order_items).map PriceFreightRow.order_id).contains r.order_id)) = true) ∧
    (∀ t b, ((get_training_data t b true).all fun r =>
      ((get_distance_seller_customer t).map DistanceRow.order_id).contains r.order_id) = true) ∧
    (∀ t b wd, ((get_training_data t b wd).all hasNoNa) = true) ∧
    (∀ t b s c g,
      get_training_data { t with sellers := s, customers := c, geolocation := g } b false =
        get_training_data t b false) ∧
    (get_training_data tFive true false).length = 4 := by
  refine ⟨?_, ?_, ?_, ?_, ?_⟩
  · intro t b
    refine List.all_eq_true.mpr fun r hr => ?_
    obtain ⟨hbase, -⟩ := List.mem_filter.mp hr
    obtain ⟨w, hw, rv, hrv, np, hnp, ns, hns, pf, hpf, hkrv, hknp, hkns, hkpf, rfl⟩ :=
      mem_trainingBase hbase
    simp only [Bool.and_eq_true]
    refine ⟨⟨⟨⟨?_, ?_⟩, ?_⟩, ?_⟩, ?_⟩
    · exact List.elem_eq_true_of_mem (List.mem_map.mpr ⟨w, hw, rfl⟩)
    · exact List.elem_eq_true_of_mem (List.mem_map.mpr ⟨rv, hrv, hkrv⟩)
    · exact List.elem_eq_true_of_mem (List.mem_map.mpr ⟨np, hnp, hknp⟩)
    · exact List.elem_eq_true_of_mem (List.mem_map.mpr ⟨ns, hns, hkns⟩)
    · exact List.elem_eq_true_of_mem (List.mem_map.mpr ⟨pf, hpf, hkpf⟩)
  · intro t b
    refine List.all_eq_true.mpr fun r hr => ?_
    obtain ⟨hmerge, -⟩ := List.mem_filter.mp hr
    obtain ⟨x, hx, d, hd, hkd, rfl⟩ := (mem_innerMergeOn _ _ _ _ _ _).mp hmerge
    exact List.elem_eq_true_of_mem (List.mem_map.mpr ⟨d, hd, hkd⟩)
  · intro t b wd
    exact List.all_eq_true.mpr fun r hr => (List.mem_filter.mp hr).2
  · intro t b s c g
    rw [get_training_data_false, get_training_data_false,
      trainingBase_ignores_geo_tables]
  · decide

end Olist
